import Mathlib

/-!
Verification development for the qsearch client shell.

Shallow embedding of the three state-management pieces of the webapp:
the Theme Resolver (`ThemeProvider`), the Session Store (`AuthProvider`,
both the redirect/OAuth variant and the password variant), and the
Search Orchestrator (`App.onSearch` together with `utils/api.ts`).

React semantics are embedded explicitly: a `useState` setter is a pure
state update; a `useEffect` body runs in a separate commit step after the
update (cleanup of the previous effect instance first); a value read
inside a callback is the value captured by the closure at render time,
not the value just scheduled by a setter.  Machine floats from the source
are modelled as exact rationals; a fallible network call is modelled by
an explicit outcome datatype (success body / non-success status /
transport failure), since `fetch` resolves for every HTTP status and
rejects only on transport failure.
-/

namespace QSearch

/-! ## Theme Resolver (ThemeProvider) — definitions -/

/-- The `ThemeMode` union type: `"light" | "dark" | "system"`. -/
inductive ThemeMode
  | light
  | dark
  | system
deriving DecidableEq

/-- The resolved theme: `"light" | "dark"`. -/
inductive ResolvedMode
  | light
  | dark
deriving DecidableEq

/-- `resolveTheme`: when `system`, queries the ambient preference
(`window.matchMedia("(prefers-color-scheme: dark)").matches`, here the
boolean `ambientDark`); otherwise returns the preference itself. -/
def resolveTheme (theme : ThemeMode) (ambientDark : Bool) : ResolvedMode :=
  match theme with
  | .system => if ambientDark then .dark else .light
  | .light => .light
  | .dark => .dark

/-- Outcome of `localStorage.getItem("theme")`: a stored string, `null`
(empty storage), or a thrown exception (storage disabled). -/
inductive StorageRead
  | val (s : String)
  | empty
  | failed
deriving DecidableEq

/-- The `useState` initializer of `ThemeProvider`:
`const saved = localStorage.getItem("theme"); if (saved === "light" ||
saved === "dark" || saved === "system") return saved; return "system";`.
There is no try/catch around the storage read, so a throwing read
propagates out of the initializer (modelled as `Except.error`). -/
def initThemeMode (read : StorageRead) : Except Unit ThemeMode :=
  match read with
  | .failed => .error ()
  | .empty => .ok .system
  | .val s =>
      if s = "light" then .ok .light
      else if s = "dark" then .ok .dark
      else if s = "system" then .ok .system
      else .ok .system

/-- The literal value `localStorage.setItem("theme", theme)` stores. -/
def encodeThemeMode : ThemeMode → String
  | .light => "light"
  | .dark => "dark"
  | .system => "system"

/-- State of the mounted `ThemeProvider` plus the environment it owns:
`theme` and `resolvedTheme` are the two React states; `appliedClass` is
the class on `document.documentElement` (exactly one of `light`/`dark`
after `applyThemeClass`); `storedValue` is the `"theme"` key of
`localStorage`; `ambientDark` is the live media-query value;
`liveListeners` counts registered ambient-change listeners and
`subActive` records whether the currently mounted subscription effect
registered one. -/
structure ThemeSt where
  theme : ThemeMode
  resolvedTheme : ResolvedMode
  appliedClass : Option ResolvedMode
  storedValue : Option String
  ambientDark : Bool
  liveListeners : Nat
  subActive : Bool
deriving DecidableEq

/-- First `useEffect` body (deps `[theme]`): resolve, `setResolvedTheme`,
`applyThemeClass`, `localStorage.setItem("theme", theme)`. -/
def themeEffect (s : ThemeSt) : ThemeSt :=
  { s with
    resolvedTheme := resolveTheme s.theme s.ambientDark
    appliedClass := some (resolveTheme s.theme s.ambientDark)
    storedValue := some (encodeThemeMode s.theme) }

/-- Cleanup of the previous subscription effect instance:
`m.removeEventListener("change", handler)` runs iff that instance had
subscribed (when it returned early no cleanup was registered). -/
def subscriptionCleanup (s : ThemeSt) : ThemeSt :=
  if s.subActive then
    { s with liveListeners := s.liveListeners - 1, subActive := false }
  else s

/-- Second `useEffect` body (deps `[theme]`):
`if (theme !== "system") return;` then `m.addEventListener("change", handler)`. -/
def subscriptionEffect (s : ThemeSt) : ThemeSt :=
  if s.theme = .system then
    { s with liveListeners := s.liveListeners + 1, subActive := true }
  else s

/-- The commit phase after a `theme` state change: React runs the
cleanups of the previous effect instances, then both effect bodies. -/
def commitThemeChange (s : ThemeSt) : ThemeSt :=
  subscriptionEffect (subscriptionCleanup (themeEffect s))

/-- The synchronous part of `setTheme` (the context exposes
`setThemeState` directly): the state update alone.  Effects run later,
in the commit phase. -/
def setThemeSync (s : ThemeSt) (p : ThemeMode) : ThemeSt :=
  { s with theme := p }

/-- A full `setTheme` call as observed after the next commit: React
bails out when the value is unchanged; otherwise the state update is
followed by the effect re-runs. -/
def setThemeCycle (s : ThemeSt) (p : ThemeMode) : ThemeSt :=
  if s.theme = p then s else commitThemeChange (setThemeSync s p)

/-- An ambient-preference change notification: the media query value
flips; the registered handler (present iff the subscription effect is
active) recomputes `resolveTheme("system")` at call time, stores it and
re-applies the class. -/
def ambientChange (s : ThemeSt) (b : Bool) : ThemeSt :=
  if s.subActive then
    { s with
      ambientDark := b
      resolvedTheme := resolveTheme .system b
      appliedClass := some (resolveTheme .system b) }
  else { s with ambientDark := b }

/-- Mounting `ThemeProvider`: run both `useState` initializers, then the
first run of both effects (no cleanups on first run).  Fails when the
storage read throws, since the initializer has no catch. -/
def mountTheme (read : StorageRead) (ambientDark : Bool) : Except Unit ThemeSt :=
  match initThemeMode read with
  | .error e => .error e
  | .ok m =>
      subscriptionEffect (themeEffect
        { theme := m
          resolvedTheme := resolveTheme m ambientDark
          appliedClass := none
          storedValue := match read with | .val v => some v | _ => none
          ambientDark := ambientDark
          liveListeners := 0
          subActive := false }) |> .ok

/-- Events the mounted resolver reacts to: a `setTheme` call (with its
commit) or an ambient-preference change notification. -/
inductive ThemeOp
  | set (p : ThemeMode)
  | ambient (b : Bool)
deriving DecidableEq

/-- One event step of the mounted resolver. -/
def themeStep (s : ThemeSt) : ThemeOp → ThemeSt
  | .set p => setThemeCycle s p
  | .ambient b => ambientChange s b

/-- Run a sequence of events. -/
def themeRun (s : ThemeSt) : List ThemeOp → ThemeSt
  | [] => s
  | op :: ops => themeRun (themeStep s op) ops

/-- Subscription invariant: exactly one live ambient listener while the
preference is `system`, none otherwise, and the mounted effect instance
knows whether it subscribed. -/
def themeInv (s : ThemeSt) : Prop :=
  s.liveListeners = (if s.theme = .system then 1 else 0) ∧
  (s.subActive = true ↔ s.theme = .system)

/-- A concrete mounted state: storage held `"light"`, ambient is light. -/
def lightMounted : ThemeSt :=
  { theme := .light
    resolvedTheme := .light
    appliedClass := some .light
    storedValue := some "light"
    ambientDark := false
    liveListeners := 0
    subActive := false }

/-- A concrete mounted state: storage empty, ambient is light. -/
def systemMounted : ThemeSt :=
  { theme := .system
    resolvedTheme := .light
    appliedClass := some .light
    storedValue := some "system"
    ambientDark := false
    liveListeners := 1
    subActive := true }

/-- The event sequence used by the C7 witness: switch away from
`system`, then back. -/
def demoOps : List ThemeOp := [.set .dark, .set .system]

/-! ## Session Store (AuthContext, password and OAuth variants) — definitions -/

/-- The `User` payload of the password-variant `AuthContext`. -/
structure User where
  user_id : String
  email : String
  name : String
  created_at : Option String
deriving DecidableEq

/-- The `User` payload of the OAuth-variant `AuthContext`. -/
structure OAuthUser where
  user_id : String
  provider : String
  email : String
  name : String
  avatar_url : String
deriving DecidableEq

/-- Outcome of the `/api/v1/auth/me` fetch: `fetch` resolves with an ok
response (whose parsed body carries `authenticated` and an optional
`user`), resolves with a non-success status, or rejects at the
transport level. -/
inductive ProbeOutcome (α : Type)
  | okBody (authenticated : Bool) (user : Option α)
  | notOk
  | transportFailed
deriving DecidableEq

/-- State of the password-variant `AuthProvider`: the `user`, `loading`
and `authEnabled` React states (`authEnabled` is initialized `true` and
never changed in this variant). -/
structure AuthState where
  user : Option User
  loading : Bool
  authEnabled : Bool
deriving DecidableEq

/-- `refreshUser` of the password variant: on an ok response,
`data.authenticated && data.user` selects `setUser(data.user)`, any
other body selects `setUser(null)`; a non-success status runs neither
branch (the `if (meRes.ok)` block is skipped and `user` keeps its
previous value); a transport failure is caught with `setUser(null)`;
the `finally` block always ends with `setLoading(false)`. -/
def refreshUser (s : AuthState) (m : ProbeOutcome User) : AuthState :=
  match m with
  | .okBody a u =>
      match a, u with
      | true, some x => { s with user := some x, loading := false }
      | _, _ => { s with user := none, loading := false }
  | .notOk => { s with loading := false }
  | .transportFailed => { s with user := none, loading := false }

/-- Outcome of the `/api/v1/auth/logout` fetch: completed with some
status (ok or not), or rejected at the transport level. -/
inductive LogoutOutcome
  | completed (okStatus : Bool)
  | transportFailed
deriving DecidableEq

/-- `logout`: `await fetch(...); setUser(null)` inside `try`, with a
`catch` that only logs.  `fetch` resolves for every HTTP status, so a
completed call of any status reaches `setUser(null)`; a transport
failure jumps to the `catch` and `setUser(null)` is never executed. -/
def logout (s : AuthState) : LogoutOutcome → AuthState
  | .completed _ => { s with user := none }
  | .transportFailed => s

/-- The enabled-provider flags of the OAuth variant. -/
structure OAuthProviders where
  google : Bool
  microsoft : Bool
deriving DecidableEq

/-- Parsed body of the `/api/v1/auth/providers` response; either field
may be absent (`data.enabled || false`, `data.providers || {...}`). -/
structure ProvidersBody where
  enabled : Option Bool
  providers : Option OAuthProviders
deriving DecidableEq

/-- Outcome of the `/api/v1/auth/providers` fetch. -/
inductive ProvidersOutcome
  | okBody (body : ProvidersBody)
  | notOk
  | transportFailed
deriving DecidableEq

/-- State of the OAuth-variant `AuthProvider`. -/
structure OAuthState where
  user : Option OAuthUser
  loading : Bool
  providers : OAuthProviders
  authEnabled : Bool
deriving DecidableEq

/-- The initial OAuth-variant state on mount: `useState(null)`,
`useState(true)` for loading, both providers `false`, and
`useState(false)` for `authEnabled`. -/
def initOAuthState : OAuthState :=
  { user := none, loading := true
    providers := { google := false, microsoft := false }
    authEnabled := false }

/-- `refreshUser` of the OAuth variant, returning the new state and the
number of `/api/v1/auth/me` probes issued.  The providers fetch may
update the `authEnabled` and `providers` states, but the subsequent
`if (authEnabled)` reads the value captured by the render closure —
the state as it was when this `refreshUser` was created (`s`), not the
value just scheduled by `setAuthEnabled`.  A transport failure of
either fetch is caught with `setUser(null)`; `finally` always sets
`loading` to `false`. -/
def refreshUserOAuth (s : OAuthState) (pr : ProvidersOutcome)
    (me : ProbeOutcome OAuthUser) : OAuthState × Nat :=
  match pr with
  | .transportFailed => ({ s with user := none, loading := false }, 0)
  | pr2 =>
      let s1 :=
        match pr2 with
        | .okBody b =>
            { s with
              authEnabled := b.enabled.getD false
              providers := b.providers.getD { google := false, microsoft := false } }
        | _ => s
      if s.authEnabled then
        match me with
        | .okBody a u =>
            match a, u with
            | true, some x => ({ s1 with user := some x, loading := false }, 1)
            | _, _ => ({ s1 with user := none, loading := false }, 1)
        | .notOk => ({ s1 with loading := false }, 1)
        | .transportFailed => ({ s1 with user := none, loading := false }, 1)
      else ({ s1 with loading := false }, 0)

/-- Refinement reference for the corrected C3 claim, written from the
amended words: only an ok response carrying `authenticated: true` and a
user payload yields that Session; an ok response without both, or a
transport failure, clears the Session; a non-success status leaves the
Session unchanged. -/
def probeOutcomeSpec (prev : Option User) (m : ProbeOutcome User) : Option User :=
  match m with
  | .okBody true (some x) => some x
  | .okBody _ _ => none
  | .notOk => prev
  | .transportFailed => none

/-- A concrete signed-in user for counterexamples and witnesses. -/
def demoUser : User :=
  { user_id := "u1", email := "u1@example.com", name := "U One", created_at := none }

/-- A concrete signed-in password-variant state. -/
def signedInState : AuthState :=
  { user := some demoUser, loading := false, authEnabled := true }

/-- A concrete OAuth user for the C4 failing input. -/
def demoOAuthUser : OAuthUser :=
  { user_id := "u1", provider := "google", email := "u1@example.com"
    name := "U One", avatar_url := "" }

/-! ## Search Orchestrator (App.onSearch, utils/api.ts) — definitions -/

/-- The `SearchMode` union type of `App`: `"local" | "hybrid"`. -/
inductive SearchMode
  | localMode
  | hybridMode
deriving DecidableEq

/-- One result entry of a search response (`SearchResult` of
`utils/api.ts`): every scoring field is optional in the wire type. -/
structure SearchResult where
  doc_id : Option String
  url : String
  title : String
  snippet : String
  distance : Option ℚ
  basin_distance : Option ℚ
  hybrid_score : Option ℚ
  serper_position : Option Nat
deriving DecidableEq

/-- A parsed search response body (`SearchResponse` of `utils/api.ts`);
`cache_hit` and `results` may be absent (`Boolean(res.cache_hit)` and
`res.results || []` are applied at the use site). -/
structure SearchResponse where
  query : String
  count : Nat
  cache_hit : Option Bool
  results : Option (List SearchResult)
deriving DecidableEq

/-- The React states of `App` that `onSearch` touches, plus the search
controls it reads. -/
structure AppState where
  query : String
  limit : Nat
  loading : Bool
  error : Option String
  cacheHit : Option Bool
  results : List SearchResult
  searchMode : SearchMode
  alpha : ℚ
  currentMode : Option SearchMode
deriving DecidableEq

/-- The request parameters an `onSearch` invocation captures from its
render closure at submission time: the mode branch taken and the
`query`, `limit`, `alpha` values passed to `qsearchSearch` /
`qsearchHybrid`. -/
structure SearchRequest where
  mode : SearchMode
  query : String
  limit : Nat
  alpha : ℚ
deriving DecidableEq

/-- Capture the request of an `onSearch` submission from the state at
that moment. -/
def captureRequest (s : AppState) : SearchRequest :=
  { mode := s.searchMode, query := s.query, limit := s.limit, alpha := s.alpha }

/-- The synchronous prefix of `onSearch`: `setError(null)`,
`setLoading(true)`, `setResults([])`, `setCacheHit(null)`,
`setCurrentMode(null)`. -/
def onSearchStart (s : AppState) : AppState :=
  { s with error := none, loading := true, results := [], cacheHit := none
           currentMode := none }

/-- The continuation of `onSearch` once its response arrives, applied to
whatever the visible state is at that moment: the hybrid branch stores
`res.results || []` and sets the mode tag; the local branch additionally
stores `Boolean(res.cache_hit)`; `finally` sets `loading` to `false`.
There is no request-identity check before the state is applied. -/
def applyResponse (req : SearchRequest) (resp : SearchResponse) (s : AppState) :
    AppState :=
  match req.mode with
  | .hybridMode =>
      { s with results := resp.results.getD [], currentMode := some .hybridMode
               loading := false }
  | .localMode =>
      { s with results := resp.results.getD []
               cacheHit := some (resp.cache_hit.getD false)
               currentMode := some .localMode, loading := false }

/-- The catch branch of `onSearch`: `setError(err.message)` then the
`finally`. -/
def applyFailure (msg : String) (s : AppState) : AppState :=
  { s with error := some msg, loading := false }

/-- A single search run to completion with no interleaving: the
submission captures the request, then its response is applied. -/
def completeSearch (s : AppState) (resp : SearchResponse) : AppState :=
  applyResponse (captureRequest s) resp (onSearchStart s)

/-- The `setAlpha` state update (the α slider `onChange`). -/
def setAlphaState (s : AppState) (a : ℚ) : AppState :=
  { s with alpha := a }

/-- The `setQuery` state update (the search input `onChange`). -/
def setQueryState (s : AppState) (q : String) : AppState :=
  { s with query := q }

/-- Two interleaved `onSearch` invocations where the second is submitted
before the first resolves and the first's response arrives last: submit
search 1 (capturing its request from `s0`), edit the query, submit
search 2, apply search 2's response, then apply search 1's response. -/
def interleavedRun (s0 : AppState) (q2 : String) (r1 r2 : SearchResponse) :
    AppState :=
  let req1 := captureRequest s0
  let s1 := setQueryState (onSearchStart s0) q2
  let req2 := captureRequest s1
  let s2 := onSearchStart s1
  applyResponse req1 r1 (applyResponse req2 r2 s2)

/-- The status line of `App`: an error message; a blank placeholder when
no mode tag is set; the hybrid tag showing the α state at render time;
or the local tag showing the cache-hit state. -/
inductive ProvenanceView
  | errorView (msg : String)
  | blank
  | hybridTag (alpha : ℚ)
  | localTag (cache : Option Bool)
deriving DecidableEq

/-- Render the status line from the visible state (the
`error ? … : currentMode === null ? … : currentMode === "hybrid" ? … : …`
chain of `App`). -/
def renderStatus (s : AppState) : ProvenanceView :=
  match s.error with
  | some m => .errorView m
  | none =>
      match s.currentMode with
      | none => .blank
      | some .hybridMode => .hybridTag s.alpha
      | some .localMode => .localTag s.cacheHit

/-- The per-result score badges of `App`: the hybrid branch shows the
Serper position, `Number(r.basin_distance || 0)` and
`Number(r.hybrid_score || 0)`; the local branch shows
`Number(r.distance || 0)`. -/
inductive ScoreBadge
  | hybridBadge (serper : Option Nat) (basin : ℚ) (hscore : ℚ)
  | localBadge (dist : ℚ)
deriving DecidableEq

/-- Render one result's score badge, keyed on `currentMode` as in the
result list of `App`. -/
def renderScoreBadge (mode : SearchMode) (r : SearchResult) : ScoreBadge :=
  match mode with
  | .hybridMode => .hybridBadge r.serper_position (r.basin_distance.getD 0)
      (r.hybrid_score.getD 0)
  | .localMode => .localBadge (r.distance.getD 0)

/-- Render the whole visible result list's badges (only when a completed
mode tag is present). -/
def renderResultBadges (s : AppState) : Option (List ScoreBadge) :=
  s.currentMode.map (fun m => s.results.map (renderScoreBadge m))

/-- The JSON body `qsearchHybrid` posts to `/hybrid`:
`JSON.stringify({ query, limit, alpha, learn })`. -/
structure HybridBody where
  query : String
  limit : Nat
  alpha : ℚ
  learn : Bool
deriving DecidableEq

/-- `qsearchHybrid`'s request body for explicit arguments. -/
def qsearchHybridBody (query : String) (limit : Nat) (alpha : ℚ) (learn : Bool) :
    HybridBody :=
  { query := query, limit := limit, alpha := alpha, learn := learn }

/-- `qsearchHybrid` called with only `(query, limit)`: the declaration
`qsearchHybrid(query, limit, alpha = 0.5, learn = true)` fills in its
default parameters. -/
def qsearchHybridBodyDefault (query : String) (limit : Nat) : HybridBody :=
  qsearchHybridBody query limit (1 / 2) true

/-- The body `onSearch` sends in hybrid mode:
`qsearchHybrid(query, limit, alpha, true)` with the closure values at
submission. -/
def hybridBodySent (s : AppState) : HybridBody :=
  qsearchHybridBody s.query s.limit s.alpha true

/-- A concrete pre-search hybrid-mode state with blend weight 0.3. -/
def hybridApp : AppState :=
  { query := "quantum entanglement", limit := 5, loading := false, error := none
    cacheHit := none, results := [], searchMode := .hybridMode, alpha := 3 / 10
    currentMode := none }

/-- A concrete pre-search local-mode state. -/
def localApp : AppState :=
  { query := "quantum entanglement", limit := 5, loading := false, error := none
    cacheHit := none, results := [], searchMode := .localMode, alpha := 1 / 2
    currentMode := none }

/-- A concrete local-mode result. -/
def resOne : SearchResult :=
  { doc_id := some "d1", url := "https://one.example", title := "One"
    snippet := "first", distance := some (1 / 10), basin_distance := none
    hybrid_score := none, serper_position := none }

/-- A concrete hybrid-mode result with `hybrid_score` absent. -/
def resTwo : SearchResult :=
  { doc_id := some "d2", url := "https://two.example", title := "Two"
    snippet := "second", distance := none, basin_distance := some (2 / 10)
    hybrid_score := none, serper_position := some 1 }

/-- The first (superseded) query's response. -/
def respOne : SearchResponse :=
  { query := "quantum entanglement", count := 1, cache_hit := some true
    results := some [resOne] }

/-- The second (most recent) query's response. -/
def respTwo : SearchResponse :=
  { query := "bell inequality", count := 1, cache_hit := none
    results := some [resTwo] }

/-! ## Theorems -/

@[simp] theorem subscriptionCleanup_theme (s : ThemeSt) :
    (subscriptionCleanup s).theme = s.theme := by
  unfold subscriptionCleanup; split <;> rfl

@[simp] theorem subscriptionCleanup_resolvedTheme (s : ThemeSt) :
    (subscriptionCleanup s).resolvedTheme = s.resolvedTheme := by
  unfold subscriptionCleanup; split <;> rfl

@[simp] theorem subscriptionCleanup_appliedClass (s : ThemeSt) :
    (subscriptionCleanup s).appliedClass = s.appliedClass := by
  unfold subscriptionCleanup; split <;> rfl

@[simp] theorem subscriptionCleanup_storedValue (s : ThemeSt) :
    (subscriptionCleanup s).storedValue = s.storedValue := by
  unfold subscriptionCleanup; split <;> rfl

@[simp] theorem subscriptionEffect_theme (s : ThemeSt) :
    (subscriptionEffect s).theme = s.theme := by
  unfold subscriptionEffect; split <;> rfl

@[simp] theorem subscriptionEffect_resolvedTheme (s : ThemeSt) :
    (subscriptionEffect s).resolvedTheme = s.resolvedTheme := by
  unfold subscriptionEffect; split <;> rfl

@[simp] theorem subscriptionEffect_appliedClass (s : ThemeSt) :
    (subscriptionEffect s).appliedClass = s.appliedClass := by
  unfold subscriptionEffect; split <;> rfl

@[simp] theorem subscriptionEffect_storedValue (s : ThemeSt) :
    (subscriptionEffect s).storedValue = s.storedValue := by
  unfold subscriptionEffect; split <;> rfl

theorem themeInv_fresh (s : ThemeSt) (hl : s.liveListeners = 0)
    (hs : s.subActive = false) : themeInv (subscriptionEffect (themeEffect s)) := by
  simp only [subscriptionEffect, themeEffect, themeInv]
  split <;> simp_all

theorem themeInv_step (s : ThemeSt) (h : themeInv s) (op : ThemeOp) :
    themeInv (themeStep s op) := by
  obtain ⟨h1, h2⟩ := h
  cases op with
  | ambient b =>
      simp only [themeStep, ambientChange]
      split <;> exact ⟨h1, h2⟩
  | set p =>
      simp only [themeStep, setThemeCycle]
      split
      · exact ⟨h1, h2⟩
      · simp only [commitThemeChange, setThemeSync, themeEffect, subscriptionCleanup,
          subscriptionEffect, themeInv]
        by_cases hs : s.subActive = true <;> by_cases hp : p = ThemeMode.system <;>
          simp_all

theorem themeInv_run (ops : List ThemeOp) :
    ∀ s : ThemeSt, themeInv s → themeInv (themeRun s ops) := by
  induction ops with
  | nil => intro s h; exact h
  | cons op ops ih =>
      intro s h
      exact ih (themeStep s op) (themeInv_step s h op)

theorem themeInv_mount (read : StorageRead) (amb : Bool) (s : ThemeSt)
    (h : mountTheme read amb = .ok s) : themeInv s := by
  cases read with
  | failed => simp [mountTheme, initThemeMode] at h
  | empty =>
      simp only [mountTheme, initThemeMode, Except.ok.injEq] at h
      subst h
      exact themeInv_fresh _ rfl rfl
  | val v =>
      simp only [mountTheme, initThemeMode] at h
      split at h
      · exact absurd h (by simp)
      · simp only [Except.ok.injEq] at h
        subst h
        exact themeInv_fresh _ rfl rfl

theorem mount_light : mountTheme (.val "light") false = .ok lightMounted := by
  rfl

theorem mount_system : mountTheme .empty false = .ok systemMounted := by
  rfl

/-- C5 counterexample: immediately after the `setTheme` call returns
(before the next render commit), the presentation layer still shows the
old mode and storage still holds the old value — the application is not
synchronous within the call. -/
theorem theme_setTheme_not_sync_cex :
    mountTheme (.val "light") false = .ok lightMounted ∧
    (setThemeSync lightMounted .dark).theme = .dark ∧
    (setThemeSync lightMounted .dark).appliedClass ≠ some ResolvedMode.dark ∧
    (setThemeSync lightMounted .dark).storedValue ≠ some "dark" :=
  ⟨rfl, rfl, by decide, by decide⟩

/-- C5 (amended): `setTheme p` updates the preference state; the
persistence of `p` and the application of the resolved mode to the
presentation layer happen in the effect run of the subsequent render
commit, not synchronously inside the call.  After that commit, storage
holds `p` and the applied class equals the resolved mode. -/
theorem theme_setTheme_applies_on_commit (s : ThemeSt) (p : ThemeMode)
    (h : s.theme ≠ p) :
    (setThemeCycle s p).theme = p ∧
    (setThemeCycle s p).storedValue = some (encodeThemeMode p) ∧
    (setThemeCycle s p).resolvedTheme = resolveTheme p s.ambientDark ∧
    (setThemeCycle s p).appliedClass = some (resolveTheme p s.ambientDark) := by
  rw [setThemeCycle, if_neg h]
  simp [commitThemeChange, setThemeSync, themeEffect]

/-- Witness for the C5 amended theorem at a concrete input. -/
theorem theme_setTheme_applies_on_commit_witness :
    lightMounted.theme ≠ ThemeMode.dark ∧
    ((setThemeCycle lightMounted .dark).theme = .dark ∧
     (setThemeCycle lightMounted .dark).storedValue = some (encodeThemeMode .dark) ∧
     (setThemeCycle lightMounted .dark).resolvedTheme =
       resolveTheme .dark lightMounted.ambientDark ∧
     (setThemeCycle lightMounted .dark).appliedClass =
       some (resolveTheme .dark lightMounted.ambientDark)) :=
  ⟨by decide, theme_setTheme_applies_on_commit lightMounted .dark (by decide)⟩

/-- C6 counterexample: a storage read that throws (storage disabled) is
not caught by the initializer — it propagates instead of yielding
`system`, and mounting the provider fails. -/
theorem theme_storage_failed_cex :
    initThemeMode .failed = .error () ∧
    initThemeMode .failed ≠ .ok ThemeMode.system ∧
    mountTheme .failed false = .error () :=
  ⟨rfl, fun hc => Except.noConfusion hc, rfl⟩

/-- C6 (amended): when the storage read completes, an empty storage or
any value other than "light"/"dark" yields the `system` preference; but
a storage read that throws is not caught and the exception propagates
out of the initializer. -/
theorem theme_getPreference_defaults (s : String) (h1 : s ≠ "light")
    (h2 : s ≠ "dark") :
    initThemeMode (.val s) = .ok ThemeMode.system ∧
    initThemeMode .empty = .ok ThemeMode.system ∧
    initThemeMode .failed = .error () := by
  refine ⟨?_, rfl, rfl⟩
  simp [initThemeMode, h1, h2]

/-- Witness for the C6 amended theorem at a concrete unrecognized value. -/
theorem theme_getPreference_defaults_witness :
    ("banana" ≠ "light") ∧ ("banana" ≠ "dark") ∧
    (initThemeMode (.val "banana") = .ok ThemeMode.system ∧
     initThemeMode .empty = .ok ThemeMode.system ∧
     initThemeMode .failed = .error ()) :=
  ⟨by decide, by decide, theme_getPreference_defaults "banana" (by decide) (by decide)⟩

/-- C7: from any mounted state and across any sequence of preference
switches and ambient changes, exactly one ambient listener is live
while the preference is `system` and none otherwise (so none is ever
leaked); and while the preference is `system`, an ambient-change
notification by itself recomputes and re-applies the resolved theme. -/
theorem theme_subscription_lifecycle (read : StorageRead) (amb : Bool)
    (s : ThemeSt) (ops : List ThemeOp) (b : Bool)
    (h : mountTheme read amb = .ok s) :
    (themeRun s ops).liveListeners =
      (if (themeRun s ops).theme = .system then 1 else 0) ∧
    ((themeRun s ops).theme = .system →
      (ambientChange (themeRun s ops) b).resolvedTheme = resolveTheme .system b ∧
      (ambientChange (themeRun s ops) b).appliedClass =
        some (resolveTheme .system b)) := by
  obtain ⟨h1, h2⟩ := themeInv_run ops s (themeInv_mount read amb s h)
  refine ⟨h1, fun hsys => ?_⟩
  have hact : (themeRun s ops).subActive = true := h2.mpr hsys
  simp [ambientChange, hact]

/-- Witness for C7: mount with empty storage, switch to `dark` and back
to `system`, then flip the ambient preference to dark. -/
theorem theme_subscription_lifecycle_witness :
    mountTheme .empty false = .ok systemMounted ∧
    ((themeRun systemMounted demoOps).liveListeners =
      (if (themeRun systemMounted demoOps).theme = .system then 1 else 0) ∧
     ((themeRun systemMounted demoOps).theme = .system →
      (ambientChange (themeRun systemMounted demoOps) true).resolvedTheme =
        resolveTheme .system true ∧
      (ambientChange (themeRun systemMounted demoOps) true).appliedClass =
        some (resolveTheme .system true))) :=
  ⟨by rfl, theme_subscription_lifecycle .empty false systemMounted demoOps true (by rfl)⟩

/-- C2 (code bug): after a transport-level failure of the logout call,
the local Session is not cleared — `setUser(null)` sits after the
`await` inside `try`, so the catch path leaves the stale user — while a
completed call of any status (even a failure status) does clear it. -/
theorem logout_transport_failure_keeps_session :
    (logout signedInState .transportFailed).user = some demoUser ∧
    (logout signedInState (.completed false)).user = none ∧
    (logout signedInState (.completed true)).user = none := by
  decide

/-- C3 counterexample: a probe that returns a non-success status leaves
the previously authenticated Session in place instead of clearing it to
null. -/
theorem probe_notOk_keeps_session_cex :
    (refreshUser signedInState .notOk).user = some demoUser ∧
    (refreshUser signedInState .notOk).user ≠ none := by
  decide

/-- C3 (amended): the probe always ends with `loading = false`; only an
ok response with `authenticated: true` and a user payload yields the
authenticated state with that Session; an ok response lacking either,
or a transport failure, clears the Session to null; a non-success
status leaves the Session unchanged. -/
theorem probe_outcome_matches_spec (s : AuthState) (m : ProbeOutcome User) :
    refreshUser s m =
      { s with user := probeOutcomeSpec s.user m, loading := false } := by
  cases m with
  | okBody a u => cases a <;> cases u <;> rfl
  | notOk => rfl
  | transportFailed => rfl

/-- C4 (code bug): on shell start the capabilities response reports an
enabled integration, yet zero session probes are issued — the
`if (authEnabled)` gate reads the stale closure value `false` from the
initial render — and the store settles anonymous with `loading = false`
even though the probe, had it been issued, would have authenticated. -/
theorem initialize_skips_probe_when_enabled :
    (refreshUserOAuth initOAuthState
        (.okBody { enabled := some true
                   providers := some { google := true, microsoft := false } })
        (.okBody true (some demoOAuthUser))).snd = 0 ∧
    (refreshUserOAuth initOAuthState
        (.okBody { enabled := some true
                   providers := some { google := true, microsoft := false } })
        (.okBody true (some demoOAuthUser))).fst.user = none ∧
    (refreshUserOAuth initOAuthState
        (.okBody { enabled := some true
                   providers := some { google := true, microsoft := false } })
        (.okBody true (some demoOAuthUser))).fst.authEnabled = true ∧
    (refreshUserOAuth initOAuthState
        (.okBody { enabled := some true
                   providers := some { google := true, microsoft := false } })
        (.okBody true (some demoOAuthUser))).fst.loading = false := by
  decide

/-- C1 counterexample: two searches in rapid succession where the first
resolves after the second — the visible result list ends up being the
first (superseded) query's, not the second's, because `onSearch` applies
whichever response arrives last with no request-identity check. -/
theorem search_supersession_cex :
    (interleavedRun hybridApp "bell inequality" respOne respTwo).results = [resOne] ∧
    respTwo.results.getD [] = [resTwo] ∧
    [resOne] ≠ [resTwo] ∧
    (interleavedRun hybridApp "bell inequality" respOne respTwo).results ≠
      respTwo.results.getD [] :=
  ⟨rfl, rfl, by decide, by decide⟩

/-- C1 (amended): responses are applied to visible state in arrival
order with no supersession check, so when a superseded request's
response arrives after the most recent request's response, the visible
outcome after both resolve is the superseded request's — for every
state, edited query and pair of responses. -/
theorem search_last_arrival_wins (s0 : AppState) (q2 : String)
    (r1 r2 : SearchResponse) :
    (interleavedRun s0 q2 r1 r2).results = r1.results.getD [] ∧
    (interleavedRun s0 q2 r1 r2).currentMode = some s0.searchMode ∧
    (interleavedRun s0 q2 r1 r2).loading = false := by
  cases h : s0.searchMode <;>
    simp [interleavedRun, captureRequest, onSearchStart, setQueryState,
      applyResponse, h]

/-- C8 counterexample: a hybrid search submitted with blend weight 0.3
sends `alpha = 0.3`, but after the slider is moved to 0.7 the rendered
outcome tag shows 0.7 — the tag reflects the live slider state, not the
weight actually sent with the request. -/
theorem hybrid_alpha_tag_cex :
    (hybridBodySent hybridApp).alpha = 3 / 10 ∧
    renderStatus (setAlphaState (completeSearch hybridApp respTwo) (7 / 10)) =
      ProvenanceView.hybridTag (7 / 10) ∧
    ProvenanceView.hybridTag ((7 : ℚ) / 10) ≠ ProvenanceView.hybridTag ((3 : ℚ) / 10) :=
  ⟨rfl, rfl, by simp only [ne_eq, ProvenanceView.hybridTag.injEq]; norm_num⟩

/-- C8 (amended): the hybrid request body carries the query text, the
result-count bound, `alpha` equal to the blend weight at submission and
the `learn` flag; a result lacking `hybrid_score` renders as the number
0; and the rendered outcome tag shows the blend-weight state at render
time, which equals the weight actually sent only while the slider has
not been changed since submission (here: immediately after the search
completes). -/
theorem hybrid_request_and_render (s : AppState) (resp : SearchResponse)
    (h : s.searchMode = .hybridMode) (r : SearchResult)
    (hr : r.hybrid_score = none) :
    hybridBodySent s =
      { query := s.query, limit := s.limit, alpha := s.alpha, learn := true } ∧
    renderStatus (completeSearch s resp) = .hybridTag s.alpha ∧
    renderScoreBadge .hybridMode r =
      .hybridBadge r.serper_position (r.basin_distance.getD 0) 0 := by
  refine ⟨rfl, ?_, ?_⟩
  · simp [completeSearch, captureRequest, onSearchStart, applyResponse,
      renderStatus, h]
  · simp [renderScoreBadge, hr]

/-- Witness for the C8 amended theorem: blend weight 0.3, a response
result with `hybrid_score` absent. -/
theorem hybrid_request_and_render_witness :
    hybridApp.searchMode = .hybridMode ∧ resTwo.hybrid_score = none ∧
    (hybridBodySent hybridApp =
      { query := hybridApp.query, limit := hybridApp.limit
        alpha := hybridApp.alpha, learn := true } ∧
     renderStatus (completeSearch hybridApp respTwo) = .hybridTag hybridApp.alpha ∧
     renderScoreBadge .hybridMode resTwo =
       .hybridBadge resTwo.serper_position (resTwo.basin_distance.getD 0) 0) :=
  ⟨rfl, rfl, hybrid_request_and_render hybridApp respTwo rfl resTwo rfl⟩

/-- C9: for a search run to completion, the rendered provenance and
score badges never mix modes — a hybrid-mode completion leaves the
cache-hit state cleared and renders the hybrid tag (never the local
cache tag) with only hybrid-shaped badges, and a local-mode completion
renders the cache tag (never the blend-weight tag) with only
local-shaped badges. -/
theorem provenance_not_mixed (s : AppState) (resp : SearchResponse) :
    (s.searchMode = .hybridMode →
      (completeSearch s resp).cacheHit = none ∧
      renderStatus (completeSearch s resp) = .hybridTag s.alpha ∧
      (∀ c, renderStatus (completeSearch s resp) ≠ ProvenanceView.localTag c) ∧
      (∀ b ∈ (renderResultBadges (completeSearch s resp)).getD [],
        ∃ sp bd hs, b = ScoreBadge.hybridBadge sp bd hs)) ∧
    (s.searchMode = .localMode →
      renderStatus (completeSearch s resp) =
        .localTag (some (resp.cache_hit.getD false)) ∧
      (∀ a, renderStatus (completeSearch s resp) ≠ ProvenanceView.hybridTag a) ∧
      (∀ b ∈ (renderResultBadges (completeSearch s resp)).getD [],
        ∃ d, b = ScoreBadge.localBadge d)) := by
  constructor
  · intro h
    refine ⟨?_, ?_, ?_, ?_⟩
    · simp [completeSearch, captureRequest, onSearchStart, applyResponse, h]
    · simp [completeSearch, captureRequest, onSearchStart, applyResponse,
        renderStatus, h]
    · intro c
      simp [completeSearch, captureRequest, onSearchStart, applyResponse,
        renderStatus, h]
    · intro b hb
      simp [renderResultBadges, completeSearch, captureRequest, onSearchStart,
        applyResponse, h, renderScoreBadge] at hb
      obtain ⟨r, _, rfl⟩ := hb
      exact ⟨_, _, _, rfl⟩
  · intro h
    refine ⟨?_, ?_, ?_⟩
    · simp [completeSearch, captureRequest, onSearchStart, applyResponse,
        renderStatus, h]
    · intro a
      simp [completeSearch, captureRequest, onSearchStart, applyResponse,
        renderStatus, h]
    · intro b hb
      simp [renderResultBadges, completeSearch, captureRequest, onSearchStart,
        applyResponse, h, renderScoreBadge] at hb
      obtain ⟨r, _, rfl⟩ := hb
      exact ⟨_, rfl⟩

/-- Witness for C9 in hybrid mode at a concrete state and response. -/
theorem provenance_not_mixed_witness :
    hybridApp.searchMode = .hybridMode ∧
    ((completeSearch hybridApp respTwo).cacheHit = none ∧
     renderStatus (completeSearch hybridApp respTwo) = .hybridTag hybridApp.alpha ∧
     (∀ c, renderStatus (completeSearch hybridApp respTwo) ≠
        ProvenanceView.localTag c) ∧
     (∀ b ∈ (renderResultBadges (completeSearch hybridApp respTwo)).getD [],
        ∃ sp bd hs, b = ScoreBadge.hybridBadge sp bd hs)) :=
  ⟨rfl, (provenance_not_mixed hybridApp respTwo).1 rfl⟩

/-- C10: `qsearchHybrid` invoked without an explicit blend weight or
learn flag posts `alpha = 0.5` and `learn = true` — its declared default
parameters. -/
theorem hybrid_default_body (q : String) (l : Nat) :
    qsearchHybridBodyDefault q l =
      { query := q, limit := l, alpha := 1 / 2, learn := true } ∧
    (qsearchHybridBodyDefault q l).alpha = 1 / 2 ∧
    (qsearchHybridBodyDefault q l).learn = true :=
  ⟨rfl, rfl, rfl⟩

end QSearch
